import Mathlib

/-!
# Verification of the rolling-deployment script `deploy.sh`

A shallow embedding of the deployment script of this repository
(`src/deploy.sh`) together with a model of the cloud control plane it talks
to (machine images, launch templates, auto-scaling groups, instance
refreshes).  The script itself is a linear sequence of CLI calls with a
polling loop; every definition below cites the lines of `deploy.sh` it
embeds.  The control-plane operations themselves are external to the
repository; they are modelled from the data model and collaborator
interface described in the repository's design documentation
(pointer reassignment for fleet updates, monotonically increasing
immutable launch-template versions, polled rollout statuses).
-/

namespace DeploySh

/-! ## Rollout monitor (deploy.sh lines 333-378)

The wait loop records the start time, and on each iteration:
* computes the elapsed wall-clock time and exits 1 if it reached `TIMEOUT`
  (lines 338-344);
* queries the instance-refresh status (lines 346-350);
* dispatches on the status string (lines 360-376): `Successful` breaks out
  of the loop, `Failed`/`Cancelled` exit 1, `InProgress`/`Pending` sleep 30
  seconds and re-poll, and any other string logs a warning and also sleeps
  30 seconds before re-polling.

We model wall-clock time as the sum of the 30-second sleeps (the CLI calls
are modelled as instantaneous), the status returned by the i-th poll as
`statuses i`, and a logged unknown-status warning as a counter increment.
-/

/-- Outcome of the wait loop: `success` is the `break` on `Successful`
(line 363), `rolloutFailed` the `exit 1` on `Failed`/`Cancelled`
(line 367), `timedOut` the `exit 1` on the elapsed-time check
(line 343). -/
inductive MonitorOutcome where
  | success
  | rolloutFailed (status : String)
  | timedOut
deriving Repr, DecidableEq

/-- Process exit code produced by each outcome: the `Successful` branch
breaks and the script later exits 0; the `Failed`/`Cancelled` branch and
the timeout branch run `exit 1`. -/
def MonitorOutcome.exitCode : MonitorOutcome → Nat
  | .success => 0
  | .rolloutFailed _ => 1
  | .timedOut => 1

/-- Result of running the wait loop: the outcome, the number of status
queries performed (`polls`), the elapsed wall-clock seconds at
termination (`elapsed`, a multiple of the 30-second sleep), and the
number of unknown-status warnings logged (`warns`). -/
structure MonitorResult where
  outcome : MonitorOutcome
  polls : Nat
  elapsed : Nat
  warns : Nat
deriving Repr, DecidableEq

/-- A status string on which the loop keeps polling: anything other than
the three statuses the `case` statement treats as terminal
(deploy.sh lines 360-376). -/
def isTerminalStatus (st : String) : Bool :=
  st == "Successful" || st == "Failed" || st == "Cancelled"

/-- Negation of `isTerminalStatus`: the loop sleeps 30s and re-polls. -/
def isContinueStatus (st : String) : Bool :=
  !isTerminalStatus st

/-- The five status values named by the `case` statement; everything else
falls into the default branch (lines 372-375) and logs a warning. -/
def isKnownStatus (st : String) : Bool :=
  isTerminalStatus st || st == "InProgress" || st == "Pending"

/-- Number of warnings logged by one poll observing `st`: the default
branch of the `case` (lines 372-375) logs one, every named branch none. -/
def warnStep (st : String) : Nat :=
  if isKnownStatus st then 0 else 1

/-- Warnings accumulated over `k` consecutive polls starting at index `i`. -/
def warnSum (s : Nat → String) : Nat → Nat → Nat
  | _, 0 => 0
  | i, Nat.succ k => warnStep (s i) + warnSum s (i + 1) k

/-- The wait loop of deploy.sh lines 337-377, from a state where `i` polls
have happened, `elapsed` seconds have passed and `warns` warnings were
logged.  Each iteration first checks the elapsed time against the budget
(lines 341-344), then polls (`statuses i`, lines 346-350) and dispatches
on the status (lines 360-376). -/
def monitorLoop (statuses : Nat → String) (timeout : Nat)
    (i elapsed warns : Nat) : MonitorResult :=
  if _h : timeout ≤ elapsed then
    -- lines 341-344: budget exhausted, `exit 1`
    ⟨.timedOut, i, elapsed, warns⟩
  else
    -- `REFRESH_STATUS` for this iteration is `statuses i` (lines 346-350)
    if statuses i = "Successful" then
      -- lines 361-364: `break`
      ⟨.success, i + 1, elapsed, warns⟩
    else if statuses i = "Failed" ∨ statuses i = "Cancelled" then
      -- lines 365-368: `exit 1`
      ⟨.rolloutFailed (statuses i), i + 1, elapsed, warns⟩
    else if statuses i = "InProgress" ∨ statuses i = "Pending" then
      -- lines 369-371: `sleep 30`
      monitorLoop statuses timeout (i + 1) (elapsed + 30) warns
    else
      -- lines 372-375: warning, `sleep 30`
      monitorLoop statuses timeout (i + 1) (elapsed + 30) (warns + 1)
termination_by timeout - elapsed
decreasing_by all_goals omega

/-- The wait loop as entered at deploy.sh line 337: no polls yet, no
elapsed time, no warnings. -/
def monitor (statuses : Nat → String) (timeout : Nat) : MonitorResult :=
  monitorLoop statuses timeout 0 0 0

/-- One continue-iteration of the loop: within budget, a non-terminal
status makes the loop sleep 30s and re-poll, logging a warning exactly
when the status is outside the five named values. -/
theorem monitorLoop_continue (s : Nat → String) (t i e w : Nat)
    (hb : e < t) (hc : isContinueStatus (s i) = true) :
    monitorLoop s t i e w = monitorLoop s t (i + 1) (e + 30) (w + warnStep (s i)) := by
  have hb' : ¬ t ≤ e := by omega
  rw [monitorLoop]
  rw [dif_neg hb']
  simp only [isContinueStatus, isTerminalStatus, Bool.not_eq_true',
    Bool.or_eq_false_iff, beq_eq_false_iff_ne, ne_eq] at hc
  obtain ⟨⟨h1, h2⟩, h3⟩ := hc
  rw [if_neg h1, if_neg (by tauto)]
  by_cases hk : s i = "InProgress" ∨ s i = "Pending"
  · rw [if_pos hk]
    have hw : warnStep (s i) = 0 := by
      rcases hk with h | h <;> simp [warnStep, isKnownStatus, h, isTerminalStatus]
    simp only [hw, Nat.add_zero]
  · rw [if_neg hk]
    have : warnStep (s i) = 1 := by
      simp only [warnStep, isKnownStatus, isTerminalStatus]
      have : ¬ (s i = "InProgress") ∧ ¬ (s i = "Pending") := by tauto
      simp [h1, h2, h3, this.1, this.2]
    rw [this]

/-- Skipping `k` consecutive in-budget polls that all observe non-terminal
statuses: the loop re-polls `k` times, sleeping 30 seconds each time and
accumulating one warning per unknown status. -/
theorem monitorLoop_skip (s : Nat → String) (t k : Nat) :
    ∀ (i e w : Nat), (∀ j, j < k → isContinueStatus (s (i + j)) = true) →
      e + 30 * k < t →
      monitorLoop s t i e w = monitorLoop s t (i + k) (e + 30 * k) (w + warnSum s i k) := by
  induction k with
  | zero =>
    intro i e w _ _
    simp [warnSum]
  | succ k ih =>
    intro i e w h hb
    have h0 : isContinueStatus (s i) = true := by simpa using h 0 (Nat.succ_pos k)
    have hlt : e < t := by omega
    rw [monitorLoop_continue s t i e w hlt h0]
    rw [ih (i + 1) (e + 30) (w + warnStep (s i))
      (fun j hj => by
        have hj' := h (j + 1) (by omega)
        have : i + (j + 1) = i + 1 + j := by omega
        rwa [this] at hj')
      (by omega)]
    have e1 : i + 1 + k = i + (k + 1) := by omega
    have e2 : e + 30 + 30 * k = e + 30 * (k + 1) := by omega
    have e3 : w + warnStep (s i) + warnSum s (i + 1) k = w + warnSum s i (k + 1) := by
      have : warnSum s i (k + 1) = warnStep (s i) + warnSum s (i + 1) k := rfl
      omega
    rw [e1, e2, e3]

/-- Whatever statuses are observed, the loop's elapsed time at termination
stays below `timeout + 30`: the first elapsed-time check at or past the
budget exits the loop, and checks happen every 30 seconds. -/
theorem monitorLoop_elapsed_lt (s : Nat → String) (t : Nat) :
    ∀ (n i e w : Nat), t - e ≤ n → e < t + 30 →
      (monitorLoop s t i e w).elapsed < t + 30 := by
  intro n
  induction n with
  | zero =>
    intro i e w hn he
    rw [monitorLoop, dif_pos (by omega : t ≤ e)]
    exact he
  | succ n ih =>
    intro i e w hn he
    by_cases hte : t ≤ e
    · rw [monitorLoop, dif_pos hte]
      exact he
    · rw [monitorLoop, dif_neg hte]
      split
      · exact he
      · split
        · exact he
        · split
          · exact ih _ _ _ (by omega) (by omega)
          · exact ih _ _ _ (by omega) (by omega)

/-- When the budget is a multiple of the 30-second interval (as the default
1800 is), the loop terminates with elapsed time at most the budget. -/
theorem monitorLoop_elapsed_le (s : Nat → String) (t : Nat) (hdvd : 30 ∣ t) :
    ∀ (n i e w : Nat), t - e ≤ n → 30 ∣ e → e ≤ t →
      (monitorLoop s t i e w).elapsed ≤ t := by
  intro n
  induction n with
  | zero =>
    intro i e w hn hd he
    rw [monitorLoop, dif_pos (by omega : t ≤ e)]
    exact he
  | succ n ih =>
    intro i e w hn hd he
    by_cases hte : t ≤ e
    · rw [monitorLoop, dif_pos hte]
      exact he
    · rw [monitorLoop, dif_neg hte]
      split
      · exact he
      · split
        · exact he
        · split
          · exact ih _ _ _ (by omega) (by omega) (by omega)
          · exact ih _ _ _ (by omega) (by omega) (by omega)

/-- If every poll reports a non-terminal status, the loop ends in the
timeout branch. -/
theorem monitorLoop_timedOut (s : Nat → String) (t : Nat)
    (hc : ∀ j, isContinueStatus (s j) = true) :
    ∀ (n i e w : Nat), t - e ≤ n → (monitorLoop s t i e w).outcome = .timedOut := by
  intro n
  induction n with
  | zero =>
    intro i e w hn
    rw [monitorLoop, dif_pos (by omega : t ≤ e)]
  | succ n ih =>
    intro i e w hn
    by_cases hte : t ≤ e
    · rw [monitorLoop, dif_pos hte]
    · rw [monitorLoop, dif_neg hte]
      split
      · rename_i h
        have hci := hc i
        rw [h] at hci
        simp [isContinueStatus, isTerminalStatus] at hci
      · split
        · rename_i h
          have hci := hc i
          rcases h with h | h <;> rw [h] at hci <;>
            simp [isContinueStatus, isTerminalStatus] at hci
        · split
          · exact ih _ _ _ (by omega)
          · exact ih _ _ _ (by omega)

/-- C1 (amended).  The polling loop terminates for every sequence of
reported statuses, with elapsed wall-clock time strictly below
`timeout + 30` seconds — i.e. it stops at the first 30-second poll
boundary at or after the configured budget — and within exactly the
configured timeout whenever the timeout is a multiple of the 30-second
interval (as the default 1800 is).  On a sequence that never reaches a
terminal state it ends in the timeout branch and exits 1 rather than
hanging. -/
theorem monitor_terminates_within_budget (s : Nat → String) (t : Nat) :
    (monitor s t).elapsed < t + 30
    ∧ (30 ∣ t → (monitor s t).elapsed ≤ t)
    ∧ ((∀ j, isContinueStatus (s j) = true) →
        (monitor s t).outcome = .timedOut ∧ (monitor s t).outcome.exitCode = 1) := by
  refine ⟨?_, fun hd => ?_, fun hc => ?_⟩
  · exact monitorLoop_elapsed_lt s t t 0 0 0 (by omega) (by omega)
  · exact monitorLoop_elapsed_le s t hd t 0 0 0 (by omega) (dvd_zero 30) (by omega)
  · have h : (monitor s t).outcome = .timedOut :=
      monitorLoop_timedOut s t hc t 0 0 0 (by omega)
    exact ⟨h, by rw [h]; rfl⟩

/-- Witness for `monitor_terminates_within_budget` at a concrete
never-terminal sequence and the budget 60. -/
theorem monitor_terminates_within_budget_witness :
    (monitor (fun _ => "InProgress") 60).elapsed ≤ 60
    ∧ (monitor (fun _ => "InProgress") 60).outcome = .timedOut :=
  ⟨(monitor_terminates_within_budget (fun _ => "InProgress") 60).2.1 (by norm_num),
   ((monitor_terminates_within_budget (fun _ => "InProgress") 60).2.2
      (fun _ => rfl)).1⟩

/-- C1 counterexample.  With the configured timeout 10 (`-t 10`) and a
rollout that is still `InProgress`, the loop only re-checks the budget
after its 30-second sleep: it terminates (in the timeout branch) at
elapsed time 30, which exceeds the configured timeout.  The claim that
the loop terminates within the configured timeout is therefore false for
budgets that are not aligned to the 30-second interval. -/
theorem monitor_exceeds_configured_timeout :
    (monitor (fun _ => "InProgress") 10).outcome = .timedOut
    ∧ (monitor (fun _ => "InProgress") 10).elapsed = 30
    ∧ ¬ ((monitor (fun _ => "InProgress") 10).elapsed ≤ 10) := by
  have h1 : monitor (fun _ => "InProgress") 10
      = monitorLoop (fun _ => "InProgress") 10 1 30 0 := by
    rw [monitor,
      monitorLoop_continue (fun _ => "InProgress") 10 0 0 0 (by omega) rfl]
    norm_num [warnStep, isKnownStatus, isTerminalStatus]
  have h2 : monitorLoop (fun _ => "InProgress") 10 1 30 0
      = ⟨.timedOut, 1, 30, 0⟩ := by
    rw [monitorLoop, dif_pos (by omega : (10 : Nat) ≤ 30)]
  rw [h1, h2]
  decide

/-- C4.  A poll that returns a status outside the five known values, while
within budget, logs one warning and continues polling after the fixed
30-second sleep; it is never treated as terminal and by itself never
stops or fails the monitor — the loop state simply advances to the next
poll. -/
theorem unknown_status_continues (s : Nat → String) (t i e w : Nat)
    (hb : e < t) (hu : isKnownStatus (s i) = false) :
    monitorLoop s t i e w = monitorLoop s t (i + 1) (e + 30) (w + 1) := by
  have hc : isContinueStatus (s i) = true := by
    simp only [isKnownStatus, Bool.or_eq_false_iff] at hu
    simp [isContinueStatus, hu.1.1]
  have hw : warnStep (s i) = 1 := by simp [warnStep, hu]
  rw [monitorLoop_continue s t i e w hb hc, hw]

/-- Witness for `unknown_status_continues`: a status string outside the
known vocabulary, observed by the first poll under the default budget. -/
theorem unknown_status_continues_witness :
    monitorLoop (fun _ => "RollbackInProgress") 1800 0 0 0
      = monitorLoop (fun _ => "RollbackInProgress") 1800 1 30 1 :=
  unknown_status_continues (fun _ => "RollbackInProgress") 1800 0 0 0
    (by omega) rfl

/-- C5.  If the k-th poll (0-based) is the first to report `Failed` or
`Cancelled` within budget, the monitor reports that failing status and
exits 1 after exactly `k + 1` status queries and `30 * k` elapsed
seconds: there is no further poll and no further sleep after the failing
one. -/
theorem failed_status_stops_monitor (s : Nat → String) (t k : Nat)
    (hpre : ∀ j, j < k → isContinueStatus (s j) = true)
    (hterm : s k = "Failed" ∨ s k = "Cancelled")
    (hb : 30 * k < t) :
    (monitor s t).outcome = .rolloutFailed (s k)
    ∧ (monitor s t).polls = k + 1
    ∧ (monitor s t).elapsed = 30 * k
    ∧ (monitor s t).outcome.exitCode = 1 := by
  have hterm' : ¬ (s k = "Successful") := by
    rcases hterm with h | h <;> rw [h] <;> decide
  have hskip := monitorLoop_skip s t k 0 0 0
    (fun j hj => by simpa using hpre j hj) (by omega)
  have hrun : monitor s t = ⟨.rolloutFailed (s k), k + 1, 30 * k, warnSum s 0 k⟩ := by
    rw [monitor, hskip]
    simp only [Nat.zero_add]
    rw [monitorLoop, dif_neg (by omega : ¬ t ≤ 30 * k), if_neg hterm', if_pos hterm]
  rw [hrun]
  exact ⟨rfl, rfl, rfl, rfl⟩

/-- A concrete status sequence ending in `Failed` at the third poll. -/
def seqEndsFailed : Nat → String
  | 0 => "Pending"
  | 1 => "InProgress"
  | _ => "Failed"

/-- Witness for `failed_status_stops_monitor` on `seqEndsFailed` with the
default 1800-second budget: failure is reported after exactly 3 polls. -/
theorem failed_status_stops_monitor_witness :
    (monitor seqEndsFailed 1800).outcome = .rolloutFailed "Failed"
    ∧ (monitor seqEndsFailed 1800).polls = 3
    ∧ (monitor seqEndsFailed 1800).elapsed = 60 :=
  have h := failed_status_stops_monitor seqEndsFailed 1800 2
    (fun j hj => by interval_cases j <;> decide) (Or.inl rfl) (by omega)
  ⟨h.1, h.2.1, h.2.2.1⟩

/-- The scripted status sequence of the spec's fourth testable property:
`Pending, InProgress, InProgress, Successful`. -/
def seqScripted : Nat → String
  | 0 => "Pending"
  | 1 => "InProgress"
  | 2 => "InProgress"
  | _ => "Successful"

/-- C8.  On the scripted sequence `Pending, InProgress, InProgress,
`Successful` and any budget larger than the 90 seconds the first three
sleeps consume, the monitor performs exactly 4 polls, sleeps 30 seconds
after each of the first three (elapsed 90), logs no warning, reports
success after the fourth poll, and the success outcome exits 0. -/
theorem monitor_scripted_four_polls (t : Nat) (h : 90 < t) :
    monitor seqScripted t = ⟨.success, 4, 90, 0⟩
    ∧ MonitorOutcome.exitCode .success = 0 := by
  have hw : warnSum seqScripted 0 3 = 0 := by decide
  have hskip := monitorLoop_skip seqScripted t 3 0 0 0
    (fun j hj => by interval_cases j <;> decide) (by omega)
  refine ⟨?_, rfl⟩
  rw [monitor, hskip]
  simp only [Nat.zero_add, hw, Nat.add_zero]
  norm_num
  rw [monitorLoop, dif_neg (by omega : ¬ t ≤ 90), if_pos (by decide : seqScripted 3 = "Successful")]

/-- Witness for `monitor_scripted_four_polls` at the default timeout. -/
theorem monitor_scripted_four_polls_witness :
    monitor seqScripted 1800 = ⟨.success, 4, 90, 0⟩ :=
  (monitor_scripted_four_polls 1800 (by omega)).1

/-! ## Control-plane model

The deploy script drives an external control plane through CLI calls.  The
operations below model that collaborator.  They follow the data model of
the design documentation: a machine image has an id and an availability
state; a launch template owns an immutable list of versions with
monotonically increasing version numbers (a new version copies a source
version with field overrides and receives the successor of the largest
existing version number); an auto-scaling group holds one active
launch-template pointer, and updating it is pointer reassignment only; an
instance refresh is created by `start-instance-refresh` and only by it. -/

/-- One immutable launch-template version: its number, the image it
references, and the rest of its configuration (opaque to the script,
which only ever overrides `ImageId`). -/
structure LTVersion where
  versionNumber : Nat
  imageId : String
  otherConfig : String
deriving Repr, DecidableEq

/-- A launch template: a name and its list of versions (most recently
created first). -/
structure LaunchTemplate where
  name : String
  versions : List LTVersion
deriving Repr, DecidableEq

/-- The largest version number present in the template; AWS assigns
`latest + 1` to a newly created version. -/
def LaunchTemplate.latestVersionNumber (lt : LaunchTemplate) : Nat :=
  lt.versions.foldr (fun v m => max v.versionNumber m) 0

/-- An auto-scaling group's (fleet's) state: its single active
launch-template pointer `(template id, version)`. -/
structure Asg where
  ltId : String
  ltVersion : Nat
deriving Repr, DecidableEq

/-- The control-plane state: images by id (value = availability state),
launch templates by id, auto-scaling groups by name, and the created
instance refreshes (id paired with status). -/
structure AwsState where
  images : List (String × String)
  templates : List (String × LaunchTemplate)
  asgs : List (String × Asg)
  refreshes : List (String × String)
deriving Repr, DecidableEq

/-- Association-list lookup by key. -/
def lookup {α : Type} : List (String × α) → String → Option α
  | [], _ => none
  | (k', v) :: rest, k => if k' = k then some v else lookup rest k

/-- Replace the value stored under `k` (used by the fleet-pointer update). -/
def setAssoc {α : Type} : List (String × α) → String → α → List (String × α)
  | [], _, _ => []
  | (k', v') :: rest, k, v =>
    if k' = k then (k', v) :: setAssoc rest k v
    else (k', v') :: setAssoc rest k v

/-- The call `aws ec2 describe-images --image-ids $AMI_ID --query 'Images[0].State'`
as invoked at deploy.sh lines 191-194: the script appends
`|| echo "null"`, so an unresolvable id or failing call yields the
string "null" instead of an availability state. -/
def describeImageState (aws : AwsState) (amiId : String) : String :=
  match lookup aws.images amiId with
  | some st => st
  | none => "null"

/-- The call `aws ec2 describe-launch-templates --query
'LaunchTemplates[0].LaunchTemplateName'` as invoked at deploy.sh lines
204-207, with `|| echo "null"` on failure. -/
def describeLaunchTemplateName (aws : AwsState) (ltId : String) : String :=
  match lookup aws.templates ltId with
  | some lt => lt.name
  | none => "null"

/-- The call `aws autoscaling describe-auto-scaling-groups --query
'AutoScalingGroups[0].AutoScalingGroupName'` as invoked at deploy.sh
lines 218-221, with `|| echo "null"` on failure. -/
def describeAsgName (aws : AwsState) (name : String) : String :=
  match lookup aws.asgs name with
  | some _ => name
  | none => "null"

/-- The call `aws ec2 describe-launch-template-versions --query
'LaunchTemplateVersions[0].VersionNumber'` as invoked at deploy.sh lines
232-235.  Modelled from the spec: the query reads the template's current
(largest) version number; `none` models the `"None"` output the script
guards against at line 237. -/
def describeCurrentVersion (aws : AwsState) (ltId : String) : Option Nat :=
  match lookup aws.templates ltId with
  | none => none
  | some lt => if lt.versions.isEmpty then none else some lt.latestVersionNumber

/-- Exit code of a failing AWS CLI invocation (the CLI reports service
errors with exit code 254; any nonzero value that is not 1 exhibits the
same behaviour under `set -e`). -/
def awsCliErrorCode : Nat := 254

/-- Whether the caller's IAM identity is allowed to perform each mutating
call; the script's own diagnostics (deploy.sh lines 255, 275-277) name
these permissions as the expected failure causes. -/
structure Perms where
  createVersionAllowed : Bool
  updateAsgAllowed : Bool
  startRefreshAllowed : Bool
deriving Repr, DecidableEq

/-- All permissions granted. -/
def permsAll : Perms := ⟨true, true, true⟩

/-- The call `aws ec2 create-launch-template-version --source-version
$CURRENT_VERSION --launch-template-data '{"ImageId": ...}'` as invoked at
deploy.sh lines 245-250.  Modelled from the spec: the new version copies
the source version's configuration, overrides only the image reference,
and receives version number `latest + 1`; the call fails (CLI exit code
`awsCliErrorCode`) when the permission is missing or the template or
source version cannot be found. -/
def cliCreateVersion (p : Perms) (aws : AwsState) (ltId : String)
    (srcVer : Nat) (amiId : String) : Except Nat (AwsState × Nat) :=
  if !p.createVersionAllowed then .error awsCliErrorCode
  else match lookup aws.templates ltId with
  | none => .error awsCliErrorCode
  | some lt =>
    match lt.versions.find? (fun v => v.versionNumber == srcVer) with
    | none => .error awsCliErrorCode
    | some src =>
      let newNum := lt.latestVersionNumber + 1
      let lt' : LaunchTemplate :=
        { lt with versions := ⟨newNum, amiId, src.otherConfig⟩ :: lt.versions }
      .ok ({ aws with templates := setAssoc aws.templates ltId lt' }, newNum)

/-- The fleet-pointer update performed by `aws autoscaling
update-auto-scaling-group --launch-template
"LaunchTemplateId=...,Version=..."` (deploy.sh lines 267-269).
Modelled from the spec: pointer reassignment only — no rollout and no
other state is created or modified. -/
def updateAutoScalingGroup (aws : AwsState) (asgName ltId : String)
    (version : Nat) : Option AwsState :=
  match lookup aws.asgs asgName with
  | none => none
  | some _ => some { aws with asgs := setAssoc aws.asgs asgName ⟨ltId, version⟩ }

/-- The same update as seen through the CLI, with the permission failure
the script's diagnostics anticipate. -/
def cliUpdateAsg (p : Perms) (aws : AwsState) (asgName ltId : String)
    (version : Nat) : Except Nat AwsState :=
  if !p.updateAsgAllowed then .error awsCliErrorCode
  else match updateAutoScalingGroup aws asgName ltId version with
  | none => .error awsCliErrorCode
  | some aws' => .ok aws'

/-- Read-back of the fleet's active launch-template version,
`aws autoscaling describe-auto-scaling-groups --query
'AutoScalingGroups[0].LaunchTemplate.Version'` (deploy.sh lines
285-288), as the text the script compares. -/
def describeAsgLtVersion (aws : AwsState) (name : String) : String :=
  match lookup aws.asgs name with
  | some a => toString a.ltVersion
  | none => "None"

/-- The call `aws autoscaling start-instance-refresh` (deploy.sh lines 299-308):
creates one new rollout for the fleet and returns its id.  The rollout
policy payload (warm-up 300, min healthy 50%, checkpoints [50, 100]) is
forwarded opaquely and does not affect the control flow modelled here. -/
def cliStartRefresh (p : Perms) (aws : AwsState) (asgName : String) :
    Except Nat (AwsState × String) :=
  if !p.startRefreshAllowed then .error awsCliErrorCode
  else match lookup aws.asgs asgName with
  | none => .error awsCliErrorCode
  | some _ =>
    let rid := "refresh-" ++ toString aws.refreshes.length
    .ok ({ aws with refreshes := aws.refreshes ++ [(rid, "Pending")] }, rid)

/-! ## Main deployment flow (deploy.sh lines 184-330)

After validation the script is a straight line of CLI calls.  Each guard
below is one `if`/`exit` of the script.  Two points of bash semantics
matter and are embedded explicitly:

* The script runs under `set -e` (line 6).  The calls at lines 245-250
  (`create-launch-template-version`), 267-269
  (`update-auto-scaling-group`) and 299-308 (`start-instance-refresh`)
  capture output with a plain `VAR=$(aws ...)` assignment and no `||`
  guard, so a failing call aborts the script immediately with the CLI's
  own exit code; the `if [[ $? -ne 0 ]] ... exit 1` handlers at lines
  252-257 and 271-280 are unreachable (after a successful assignment
  `$?` is 0).  The abort is modelled by propagating `awsCliErrorCode`.
* The describe calls at lines 191-194, 204-207 and 218-221 are protected
  by `|| echo "null"`, so they never abort; the script tests their
  output strings instead.
-/

/-- The three validated inputs the main flow consumes. -/
structure DeployArgs where
  amiId : String
  ltId : String
  asgName : String
deriving Repr, DecidableEq

/-- The step at which a run stopped with an error. -/
inductive Stage where
  | amiCheck
  | ltAccess
  | asgAccess
  | currentVersion
  | createVersion
  | updateAsg
  | startRefresh
deriving Repr, DecidableEq

/-- The audit file written at deploy.sh lines 317-328 (`deployment_*.env`):
the key-value pairs that depend on this run. -/
structure DeploymentRecord where
  refreshId : String
  amiId : String
  newVersion : Nat
  ltId : String
  asgName : String
deriving Repr, DecidableEq

/-- Result of the main flow: process exit code, the failing stage (if
any), the created launch-template version and refresh id (if reached),
whether the read-after-write verification printed its mismatch warning
(lines 290-292), the final control-plane state, and the audit file
written (if reached). -/
structure DeployResult where
  exitCode : Nat
  failedStage : Option Stage
  newVersion : Option Nat
  refreshId : Option String
  mismatchWarning : Bool
  finalState : AwsState
  auditFile : Option DeploymentRecord
deriving Repr, DecidableEq

/-- An aborted run: exit with `code` at `stage`, control plane left as it
was, nothing created, no audit file. -/
def mkFail (code : Nat) (stage : Stage) (aws : AwsState) : DeployResult :=
  { exitCode := code
    failedStage := some stage
    newVersion := none
    refreshId := none
    mismatchWarning := false
    finalState := aws
    auditFile := none }

/-- deploy.sh lines 283-330, after the fleet update succeeded: the
read-after-write verification (lines 284-295) compares the fleet's
reported version string `readBack` against `$NEW_VERSION`; on mismatch it
only prints warnings (lines 290-292) and execution continues into
`start-instance-refresh` (lines 298-308), the empty/"null" refresh-id
guard (lines 310-313), and the audit-file write (lines 316-330). -/
def finishDeploy (p : Perms) (args : DeployArgs) (aws : AwsState)
    (newV : Nat) (readBack : String) : DeployResult :=
  -- `readBack != toString newV` is the string comparison of line 290; on
  -- mismatch the script only prints warnings (lines 291-292), so the
  -- comparison's result is recorded but never branches to an exit
  match cliStartRefresh p aws args.asgName with
  | .error code =>
    -- `set -e` aborts with the CLI's exit code
    { mkFail code .startRefresh aws with
        newVersion := some newV, mismatchWarning := readBack != toString newV }
  | .ok (aws', rid) =>
    if rid = "" ∨ rid = "null" then
      -- lines 310-313: `exit 1`
      { mkFail 1 .startRefresh aws' with
          newVersion := some newV, mismatchWarning := readBack != toString newV }
    else
      -- lines 314-330: success; audit file written, later `exit 0`
      { exitCode := 0
        failedStage := none
        newVersion := some newV
        refreshId := some rid
        mismatchWarning := readBack != toString newV
        finalState := aws'
        auditFile := some ⟨rid, args.amiId, newV, args.ltId, args.asgName⟩ }

/-- deploy.sh lines 184-330: the main flow from the AMI availability check
to the audit-file write (the optional wait loop is `monitor` above).
Guards appear in source order: AMI state (lines 196-199), launch-template
access (lines 209-213), ASG access (lines 223-227), current version
(lines 237-240), version creation (lines 245-262), fleet update (lines
267-280), then `finishDeploy`. -/
def runDeploy (p : Perms) (args : DeployArgs) (aws : AwsState) : DeployResult :=
  if describeImageState aws args.amiId ≠ "available" then
    -- lines 196-199: `exit 1`
    mkFail 1 .amiCheck aws
  else if describeLaunchTemplateName aws args.ltId = "null" then
    -- lines 209-213: `exit 1`
    mkFail 1 .ltAccess aws
  else if describeAsgName aws args.asgName ≠ args.asgName then
    -- lines 223-227: `exit 1`
    mkFail 1 .asgAccess aws
  else
    match describeCurrentVersion aws args.ltId with
    | none =>
      -- lines 237-240: `exit 1` on empty/"None" output
      mkFail 1 .currentVersion aws
    | some cur =>
      match cliCreateVersion p aws args.ltId cur args.amiId with
      | .error code =>
        -- `set -e` aborts with the CLI's exit code before line 252
        mkFail code .createVersion aws
      | .ok (aws1, newV) =>
        if toString newV = "" ∨ toString newV = "None" then
          -- lines 259-262: `exit 1` (unreachable for a numeric version)
          mkFail 1 .createVersion aws1
        else
          match cliUpdateAsg p aws1 args.asgName args.ltId newV with
          | .error code =>
            -- `set -e` aborts with the CLI's exit code before line 271
            { mkFail code .updateAsg aws1 with newVersion := some newV }
          | .ok aws2 =>
            finishDeploy p args aws2 newV (describeAsgLtVersion aws2 args.asgName)

/-- Looking up the updated key after a pointer reassignment yields the new
value (when the key was present). -/
theorem lookup_setAssoc_some {α : Type} (l : List (String × α)) (k : String)
    (v a : α) (h : lookup l k = some a) : lookup (setAssoc l k v) k = some v := by
  induction l with
  | nil => simp [lookup] at h
  | cons p rest ih =>
    obtain ⟨k', v'⟩ := p
    by_cases hk : k' = k
    · simp [setAssoc, lookup, hk]
    · simp only [setAssoc, lookup, hk, if_false, if_neg hk] at h ⊢
      exact ih h

/-- Reassigning the same value twice is the same as doing it once. -/
theorem setAssoc_idem {α : Type} (l : List (String × α)) (k : String) (v : α) :
    setAssoc (setAssoc l k v) k v = setAssoc l k v := by
  induction l with
  | nil => rfl
  | cons p rest ih =>
    obtain ⟨k', v'⟩ := p
    by_cases hk : k' = k <;> simp [setAssoc, hk, ih]

/-- C9.  The fleet pointer update is idempotent: if updating the fleet's
launch-template pointer to `(ltId, v)` turns the control plane `aws` into
`aws'`, then performing the very same update on `aws'` again returns
`aws'` unchanged; the update touches no rollouts (the refresh list of
`aws'` is that of `aws`), and after the first application the fleet's
active pointer is exactly `(ltId, v)`. -/
theorem fleet_update_idempotent (aws aws' : AwsState) (asgName ltId : String)
    (v : Nat) (h : updateAutoScalingGroup aws asgName ltId v = some aws') :
    updateAutoScalingGroup aws' asgName ltId v = some aws'
    ∧ aws'.refreshes = aws.refreshes
    ∧ lookup aws'.asgs asgName = some ⟨ltId, v⟩ := by
  unfold updateAutoScalingGroup at h
  cases hl : lookup aws.asgs asgName with
  | none => rw [hl] at h; exact absurd h (by simp)
  | some a =>
    rw [hl] at h
    simp only [Option.some.injEq] at h
    subst h
    have hlook : lookup (setAssoc aws.asgs asgName ⟨ltId, v⟩) asgName
        = some ⟨ltId, v⟩ :=
      lookup_setAssoc_some aws.asgs asgName ⟨ltId, v⟩ a hl
    refine ⟨?_, rfl, hlook⟩
    unfold updateAutoScalingGroup
    rw [show ({ aws with asgs := setAssoc aws.asgs asgName ⟨ltId, v⟩ } : AwsState).asgs
        = setAssoc aws.asgs asgName ⟨ltId, v⟩ from rfl, hlook]
    simp [setAssoc_idem]

/-- A small concrete control plane: one available image, one template with
a single version, one fleet pointing at version 1, no rollouts yet. -/
def awsBase : AwsState :=
  { images := [("ami-12345678", "available")]
    templates := [("lt-abcdef123", ⟨"web-template", [⟨1, "ami-00000000", "cfg"⟩]⟩)]
    asgs := [("my-asg", ⟨"lt-abcdef123", 1⟩)]
    refreshes := [] }

/-- The state `awsBase` after repointing the fleet at version 2. -/
def awsRepointed : AwsState :=
  { awsBase with asgs := [("my-asg", ⟨"lt-abcdef123", 2⟩)] }

/-- Witness for `fleet_update_idempotent` on `awsBase`. -/
theorem fleet_update_idempotent_witness :
    updateAutoScalingGroup awsRepointed "my-asg" "lt-abcdef123" 2 = some awsRepointed
    ∧ awsRepointed.refreshes = awsBase.refreshes :=
  have h := fleet_update_idempotent awsBase awsRepointed "my-asg" "lt-abcdef123" 2
    (by decide)
  ⟨h.1, h.2.1⟩

/-- C2.  When the image is available, the launch-configuration update step
(deploy.sh lines 230-263) reads the template's current version number
`cur`, and a successful `create-launch-template-version --source-version
$CURRENT_VERSION --launch-template-data '{"ImageId": ...}'` creates
exactly one new version whose configuration is the read version's with
only the image reference overridden to `amiId`; the returned new version
number is strictly greater than `cur`. -/
theorem create_version_copies_current_and_increments
    (p : Perms) (aws aws' : AwsState) (ltId amiId : String) (cur newV : Nat)
    (havail : describeImageState aws amiId = "available")
    (hcur : describeCurrentVersion aws ltId = some cur)
    (hcreate : cliCreateVersion p aws ltId cur amiId = .ok (aws', newV)) :
    cur < newV
    ∧ ∃ lt src, lookup aws.templates ltId = some lt
        ∧ src ∈ lt.versions
        ∧ src.versionNumber = cur
        ∧ lookup aws'.templates ltId
            = some { lt with versions := ⟨newV, amiId, src.otherConfig⟩ :: lt.versions } := by
  unfold describeCurrentVersion at hcur
  unfold cliCreateVersion at hcreate
  cases hl : lookup aws.templates ltId with
  | none =>
    rw [hl] at hcur
    simp at hcur
  | some lt =>
    rw [hl] at hcur hcreate
    have hcur' : cur = lt.latestVersionNumber := by
      by_cases he : lt.versions.isEmpty <;> simp [he] at hcur
      exact hcur.symm
    cases hp : p.createVersionAllowed with
    | false =>
      rw [hp] at hcreate
      simp at hcreate
    | true =>
      rw [hp] at hcreate
      simp only [Bool.not_true, Bool.false_eq_true, if_false] at hcreate
      cases hf : lt.versions.find? (fun v => v.versionNumber == cur) with
      | none =>
        rw [hf] at hcreate
        simp at hcreate
      | some src =>
        rw [hf] at hcreate
        simp only [Except.ok.injEq, Prod.mk.injEq] at hcreate
        obtain ⟨haws, hnew⟩ := hcreate
        refine ⟨by omega, lt, src, rfl, List.mem_of_find?_eq_some hf, ?_, ?_⟩
        · have hbeq := List.find?_some hf
          exact eq_of_beq hbeq
        · rw [← haws, ← hnew]
          exact lookup_setAssoc_some aws.templates ltId _ lt hl

/-- The state `awsBase` after the creation of launch-template version 2 referencing
the new image. -/
def awsAfterCreate : AwsState :=
  { awsBase with templates :=
      [("lt-abcdef123",
        ⟨"web-template", [⟨2, "ami-12345678", "cfg"⟩, ⟨1, "ami-00000000", "cfg"⟩]⟩)] }

/-- Witness for `create_version_copies_current_and_increments` on
`awsBase`: version 1 is read, version 2 is created. -/
theorem create_version_witness :
    1 < 2
    ∧ ∃ lt src, lookup awsBase.templates "lt-abcdef123" = some lt
        ∧ src ∈ lt.versions
        ∧ src.versionNumber = 1
        ∧ lookup awsAfterCreate.templates "lt-abcdef123"
            = some { lt with versions := ⟨2, "ami-12345678", src.otherConfig⟩ :: lt.versions } :=
  create_version_copies_current_and_increments permsAll awsBase awsAfterCreate
    "lt-abcdef123" "ami-12345678" 1 2 (by decide) (by decide) rfl

/-- C6.  If the image's reported availability state is anything other than
`available` — `pending`, or the `null` produced for an unresolvable id —
the script exits 1 at the AMI check (deploy.sh lines 196-199), before the
version-creation call: the control plane is untouched (in particular no
launch-template version is created), and no refresh or audit file
exists for the run. -/
theorem ami_not_available_aborts (p : Perms) (args : DeployArgs) (aws : AwsState)
    (h : describeImageState aws args.amiId ≠ "available") :
    runDeploy p args aws = mkFail 1 .amiCheck aws
    ∧ (runDeploy p args aws).exitCode = 1
    ∧ (runDeploy p args aws).finalState = aws
    ∧ (runDeploy p args aws).auditFile = none := by
  have he : runDeploy p args aws = mkFail 1 .amiCheck aws := by
    unfold runDeploy
    rw [if_pos h]
  refine ⟨he, ?_, ?_, ?_⟩ <;> rw [he] <;> rfl

/-- The state `awsBase` with the image still in the `pending` state. -/
def awsPendingImage : AwsState :=
  { awsBase with images := [("ami-12345678", "pending")] }

/-- Witness for `ami_not_available_aborts`: a pending image aborts the run
with exit code 1 and an unchanged control plane. -/
theorem ami_not_available_aborts_witness :
    runDeploy permsAll ⟨"ami-12345678", "lt-abcdef123", "my-asg"⟩ awsPendingImage
      = mkFail 1 .amiCheck awsPendingImage :=
  (ami_not_available_aborts permsAll ⟨"ami-12345678", "lt-abcdef123", "my-asg"⟩
    awsPendingImage (by decide)).1

/-- A generated refresh id never collides with the strings the guard at
deploy.sh lines 310-313 tests for. -/
theorem refresh_id_not_null (s : String) :
    ("refresh-" ++ s) ≠ "" ∧ ("refresh-" ++ s) ≠ "null" := by
  have h8 : ("refresh-" : String).length = 8 := rfl
  have h0 : ("" : String).length = 0 := rfl
  have h4 : ("null" : String).length = 4 := rfl
  constructor
  · intro h
    have hlen := congrArg String.length h
    rw [String.length_append, h8, h0] at hlen
    omega
  · intro h
    have hlen := congrArg String.length h
    rw [String.length_append, h8, h4] at hlen
    omega

/-- C7.  After the fleet update, when the read-after-write check (deploy.sh
lines 283-295) sees a reported version different from the requested one,
the run records the mismatch warning and continues: the instance refresh
is still started, no stage fails, and the run exits 0 — the mismatch is
never an abort condition. -/
theorem version_mismatch_is_nonfatal (p : Perms) (args : DeployArgs)
    (aws : AwsState) (newV : Nat) (readBack : String)
    (hm : readBack ≠ toString newV)
    (hperm : p.startRefreshAllowed = true)
    (hasg : (lookup aws.asgs args.asgName).isSome = true) :
    (finishDeploy p args aws newV readBack).mismatchWarning = true
    ∧ (finishDeploy p args aws newV readBack).exitCode = 0
    ∧ (finishDeploy p args aws newV readBack).failedStage = none
    ∧ (finishDeploy p args aws newV readBack).refreshId
        = some ("refresh-" ++ toString aws.refreshes.length) := by
  have hrid := refresh_id_not_null (toString aws.refreshes.length)
  unfold finishDeploy cliStartRefresh
  rw [hperm]
  simp only [Bool.not_true, Bool.false_eq_true, if_false]
  cases hl : lookup aws.asgs args.asgName with
  | none =>
    rw [hl] at hasg
    simp at hasg
  | some a =>
    dsimp only
    rw [if_neg (by rintro (h | h); exacts [hrid.1 h, hrid.2 h])]
    exact ⟨bne_iff_ne.mpr hm, rfl, rfl, rfl⟩

/-- Witness for `version_mismatch_is_nonfatal`: the fleet reports version
"1" while version 2 was requested; the run still starts the refresh and
exits 0 with the warning recorded. -/
theorem version_mismatch_is_nonfatal_witness :
    (finishDeploy permsAll ⟨"ami-12345678", "lt-abcdef123", "my-asg"⟩ awsBase
        2 "1").mismatchWarning = true
    ∧ (finishDeploy permsAll ⟨"ami-12345678", "lt-abcdef123", "my-asg"⟩ awsBase
        2 "1").exitCode = 0 :=
  have h := version_mismatch_is_nonfatal permsAll
    ⟨"ami-12345678", "lt-abcdef123", "my-asg"⟩ awsBase 2 "1"
    (by decide) rfl (by decide)
  ⟨h.1, h.2.1⟩

/-- C10 (amended).  If the `create-launch-template-version` call itself
fails, `set -e` (deploy.sh line 6) aborts the script at the assignment of
line 245 with the CLI's own nonzero exit code (`awsCliErrorCode`, which
is not 1 — the `exit 1` handler at lines 252-257 is unreachable); a
successful call that returned an empty/"None" version would exit 1 at
lines 259-262.  Either way the run stops before the fleet-update call:
the control plane is unchanged (fleet pointer untouched, no instance
refresh), and no audit file is written. -/
theorem create_failure_aborts_before_fleet_update
    (p : Perms) (args : DeployArgs) (aws : AwsState) (cur : Nat)
    (h1 : describeImageState aws args.amiId = "available")
    (h2 : ¬ describeLaunchTemplateName aws args.ltId = "null")
    (h3 : describeAsgName aws args.asgName = args.asgName)
    (h4 : describeCurrentVersion aws args.ltId = some cur)
    (h5 : p.createVersionAllowed = false) :
    runDeploy p args aws = mkFail awsCliErrorCode .createVersion aws
    ∧ (runDeploy p args aws).exitCode ≠ 0
    ∧ (runDeploy p args aws).exitCode ≠ 1
    ∧ (runDeploy p args aws).finalState = aws
    ∧ (runDeploy p args aws).refreshId = none
    ∧ (runDeploy p args aws).auditFile = none := by
  have hcfail : cliCreateVersion p aws args.ltId cur args.amiId
      = .error awsCliErrorCode := by
    unfold cliCreateVersion
    rw [h5]
    rfl
  have he : runDeploy p args aws = mkFail awsCliErrorCode .createVersion aws := by
    unfold runDeploy
    rw [if_neg (fun hc => hc h1), if_neg h2, if_neg (fun hc => hc h3), h4]
    dsimp only
    rw [hcfail]
  have hne0 : awsCliErrorCode ≠ 0 := by decide
  have hne1 : awsCliErrorCode ≠ 1 := by decide
  refine ⟨he, ?_, ?_, ?_, ?_, ?_⟩ <;> rw [he]
  all_goals first | exact hne0 | exact hne1 | rfl

/-- Permissions lacking `ec2:CreateLaunchTemplateVersion`. -/
def permsNoCreate : Perms := ⟨false, true, true⟩

/-- Witness for `create_failure_aborts_before_fleet_update` on `awsBase`
with the creation permission missing. -/
theorem create_failure_aborts_witness :
    runDeploy permsNoCreate ⟨"ami-12345678", "lt-abcdef123", "my-asg"⟩ awsBase
      = mkFail awsCliErrorCode .createVersion awsBase :=
  (create_failure_aborts_before_fleet_update permsNoCreate
    ⟨"ami-12345678", "lt-abcdef123", "my-asg"⟩ awsBase 1
    (by decide) (by decide) (by decide) (by decide) rfl).1

/-- C10 counterexample.  On a concrete run where the creation call fails
(missing permission), the script aborts — before the fleet update, with
the control plane unchanged and no audit file — but with exit code 254
(the CLI's own code, propagated by `set -e`), not the exit code 1 the
claim states: the `exit 1` handler at deploy.sh lines 252-257 is dead
code because under `set -e` a failing `NEW_VERSION=$(aws ...)` assignment
terminates the script before line 252, and after a successful assignment
`$?` is 0. -/
theorem create_failure_exit_code_not_one :
    (runDeploy permsNoCreate ⟨"ami-12345678", "lt-abcdef123", "my-asg"⟩ awsBase).exitCode
      = 254
    ∧ ¬ ((runDeploy permsNoCreate ⟨"ami-12345678", "lt-abcdef123", "my-asg"⟩
          awsBase).exitCode = 1)
    ∧ (runDeploy permsNoCreate ⟨"ami-12345678", "lt-abcdef123", "my-asg"⟩
          awsBase).failedStage = some .createVersion
    ∧ (runDeploy permsNoCreate ⟨"ami-12345678", "lt-abcdef123", "my-asg"⟩
          awsBase).finalState = awsBase := by
  decide

/-! ## Command-line surface and environment fallback (deploy.sh lines 32-147)

The script's usage text (lines 60-74) and its validation error messages
(lines 138, 144) document that `LAUNCH_TEMPLATE_ID` and `ASG_NAME` may be
supplied as environment variables instead of the `-l`/`-g` flags.  The
embedding below follows the shell semantics of the relevant lines:

* at startup the shell variables hold the values inherited from the
  environment (if exported);
* line 36 `LAUNCH_TEMPLATE_ID=""` and line 37 `ASG_NAME=""` assign the
  empty string unconditionally, replacing any inherited value;
* the argument loop (lines 80-124) overwrites the variable when the
  corresponding flag is passed;
* lines 127-128 `LAUNCH_TEMPLATE_ID=${LAUNCH_TEMPLATE_ID:-$LAUNCH_TEMPLATE_ID}`
  (and the same for `ASG_NAME`) expand to the variable's own current
  value in both arms, since `${VAR:-word}` substitutes `word` exactly
  when `VAR` is empty and here `word` is `$VAR` itself;
* lines 131-147 validate the three required values in order (AMI id,
  launch-template id, ASG name) and exit 1 on the first empty one. -/

/-- The environment variables the usage text documents as fallbacks. -/
structure ShellEnv where
  launchTemplateId : Option String
  asgName : Option String
deriving Repr, DecidableEq

/-- The three flags relevant to validation (each `none` when not passed). -/
structure Flags where
  amiId : Option String
  launchTemplateId : Option String
  asgName : Option String
deriving Repr, DecidableEq

/-- Value of the shell variable `LAUNCH_TEMPLATE_ID` after deploy.sh line
36: the unconditional assignment `LAUNCH_TEMPLATE_ID=""` replaces the
inherited environment value, whatever it was. -/
def ltIdAfterInit (_env : ShellEnv) : String := ""

/-- Value of the shell variable `ASG_NAME` after deploy.sh line 37:
likewise reset to the empty string. -/
def asgNameAfterInit (_env : ShellEnv) : String := ""

/-- deploy.sh lines 127-128: `${VAR:-$VAR}` — if the variable is empty the
fallback `$VAR` is substituted, which is the same (empty) value; the
inherited environment value is never consulted here. -/
def selfFallback (v : String) : String :=
  if v = "" then v else v

/-- Outcome of the required-parameter validation (deploy.sh lines
131-147): the first missing value wins, in source order. -/
inductive ValidationResult where
  | ok (amiId ltId asgName : String)
  | missingAmi
  | missingLt
  | missingAsg
deriving Repr, DecidableEq

/-- deploy.sh lines 32-147 composed: variable setup (lines 36-37), flag
parsing (lines 80-124, a flag overwrites the variable), the
self-fallback (lines 127-128), then validation (lines 131-147). -/
def validateArgs (env : ShellEnv) (f : Flags) : ValidationResult :=
  let ami := f.amiId.getD ""
  let lt := selfFallback (f.launchTemplateId.getD (ltIdAfterInit env))
  let asg := selfFallback (f.asgName.getD (asgNameAfterInit env))
  if ami = "" then .missingAmi
  else if lt = "" then .missingLt
  else if asg = "" then .missingAsg
  else .ok ami lt asg

/-- C3 (the code contradicts it).  With the template id and fleet name
exported only as environment variables (`LAUNCH_TEMPLATE_ID`,
`ASG_NAME`) and not passed as flags, validation fails — the run exits 1
with "Launch Template ID is required" — because line 36 resets the
variable before the "fallback" of line 127 reads it; symmetrically, with
the template id flag present and only `ASG_NAME` exported, validation
fails at the fleet name.  The documented environment-variable fallback
is therefore dead: it can never rescue a missing flag. -/
theorem env_fallback_is_dead :
    validateArgs ⟨some "lt-abcdef123", some "my-asg"⟩
        ⟨some "ami-12345678", none, none⟩ = .missingLt
    ∧ validateArgs ⟨none, some "my-asg"⟩
        ⟨some "ami-12345678", some "lt-abcdef123", none⟩ = .missingAsg
    ∧ ltIdAfterInit ⟨some "lt-abcdef123", some "my-asg"⟩ = ""
    ∧ asgNameAfterInit ⟨some "lt-abcdef123", some "my-asg"⟩ = "" := by
  exact ⟨by decide, by decide, rfl, rfl⟩
